import Mathlib

/-!
Verification of the go-spacemesh API gateway core: the service configuration
resolver (`api/config/config.go`) and the grpc service handlers
(`api/grpcserver/node_service.go`: `NodeService` and `SmesherService`).

The Go code is shallowly embedded: each Go function becomes a Lean function
over explicit data; the mutation of the `Config` receiver becomes explicit
state passing; fallible operations return an `Option` error or an `Except`.
-/

/-- The api `Config` struct from `api/config/config.go` (field for field). -/
structure Config where
  StartGrpcServer    : Bool
  StartGrpcServices  : List String
  GrpcServerPort     : Int
  NewGrpcServerPort  : Int
  StartJSONServer    : Bool
  StartNewJSONServer : Bool
  JSONServerPort     : Int
  NewJSONServerPort  : Int
  StartNodeService   : Bool
  StartMeshService   : Bool
deriving Repr, DecidableEq

/-- `DefaultConfig` from `api/config/config.go`. -/
def DefaultConfig : Config :=
  { StartGrpcServer    := false
    StartGrpcServices  := []
    GrpcServerPort     := 9091
    NewGrpcServerPort  := 9092
    StartJSONServer    := false
    StartNewJSONServer := false
    JSONServerPort     := 9090
    NewJSONServerPort  := 9093
    StartNodeService   := false
    StartMeshService   := false }

/-- The `for _, svc := range s.StartGrpcServices` loop of `ParseServicesList`:
walks the requested names, setting `StartMeshService` / `StartNodeService`
in place, and returns early with an error on the first unrecognized name.
The returned config carries every mutation performed before the early return,
exactly as the Go receiver does. -/
def parseLoop : Config → List String → Config × Option String
  | cfg, [] => (cfg, none)
  | cfg, svc :: rest =>
    if svc = "mesh" then
      parseLoop { cfg with StartMeshService := true } rest
    else if svc = "node" then
      parseLoop { cfg with StartNodeService := true } rest
    else
      (cfg, some ("unrecognized GRPC service requested: " ++ svc))

/-- `ParseServicesList` from `api/config/config.go`: runs the service-name
loop, then checks the JSON-gateway dependency
(`s.StartNewJSONServer && !s.StartNodeService`). The first component is the
final state of the (mutated) receiver, the second is the returned error. -/
def ParseServicesList (cfg : Config) : Config × Option String :=
  match parseLoop cfg cfg.StartGrpcServices with
  | (cfg1, some e) => (cfg1, some e)
  | (cfg1, none) =>
    if cfg1.StartNewJSONServer && !cfg1.StartNodeService then
      (cfg1, some "must enable at least one GRPC service along with JSON gateway service")
    else
      (cfg1, none)

/-! ## The grpc status model

`status.Errorf(codes.X, msg)` and `status.Error(codes.X, msg)` build an error
with a grpc status code and a message; successful handlers return a response
and a nil error. A handler is embedded as `Except GrpcError Response`. -/

/-- The grpc status codes used by the handlers in `node_service.go`. -/
inductive GrpcCode where
  | invalidArgument
  | internal
  | unimplemented
deriving Repr, DecidableEq

/-- A grpc error: a status code plus a human-readable message. -/
structure GrpcError where
  code : GrpcCode
  msg  : String
deriving Repr, DecidableEq

/-- `rpcstatus.Status{Code: int32(code.Code_OK)}`: the OK status code (0)
embedded in successful responses. -/
def codeOK : Int := 0

/-! ## NodeService.Echo -/

/-- `pb.EchoRequest`: carries an optional `Msg` wrapper whose `Value` is a
string; `in.Msg == nil` is `Msg = none`. -/
structure EchoRequest where
  Msg : Option String
deriving Repr, DecidableEq

/-- `pb.EchoResponse`: carries the echoed string (`Msg.Value`). -/
structure EchoResponse where
  Msg : String
deriving Repr, DecidableEq

/-- `NodeService.Echo` from `node_service.go`: returns the request payload
unchanged when present, else fails with `InvalidArgument`. -/
def Echo (request : EchoRequest) : Except GrpcError EchoResponse :=
  match request.Msg with
  | some v => .ok { Msg := v }
  | none => .error { code := .invalidArgument, msg := "Must include `Msg`" }

/-! ## NodeService.Status -/

/-- The values `NodeService.Status` reads from its five collaborators:
`PeerCounter.PeerCount()`, `Syncer.IsSynced()`, `Tx.LatestLayer()`,
`GenTime.GetCurrentLayer()`, `Tx.LatestLayerInState()` (layers read as
`uint64` via `.Uint64()`). -/
structure NodeCollaborators where
  peerCount          : Nat
  isSynced           : Bool
  latestLayer        : Nat
  currentLayer       : Nat
  latestLayerInState : Nat
deriving Repr, DecidableEq

/-- `pb.NodeStatus`, the payload of `pb.StatusResponse`. -/
structure NodeStatus where
  ConnectedPeers : Nat
  IsSynced       : Bool
  SyncedLayer    : Nat
  TopLayer       : Nat
  VerifiedLayer  : Nat
deriving Repr, DecidableEq

/-- `NodeService.Status` from `node_service.go`: assembles the five
collaborator reads into a `pb.NodeStatus` and never returns an error. -/
def Status (s : NodeCollaborators) : Except GrpcError NodeStatus :=
  .ok
    { ConnectedPeers := s.peerCount
      IsSynced       := s.isSynced
      SyncedLayer    := s.latestLayer
      TopLayer       := s.currentLayer
      VerifiedLayer  := s.latestLayerInState }

/-! ## NodeService.StatusStream / NodeService.ErrorStream

Both stubs log and `return nil` without touching the stream. A streaming
handler is embedded as the list of messages pushed to the stream paired with
the returned error (`none` = nil). -/

/-- `NodeService.StatusStream` from `node_service.go`: sends nothing on the
stream and returns nil. -/
def StatusStream (_request : Unit) : List NodeStatus × Option GrpcError :=
  ([], none)

/-- `NodeService.ErrorStream` from `node_service.go`: sends nothing on the
stream and returns nil. -/
def ErrorStream (_request : Unit) : List String × Option GrpcError :=
  ([], none)

/-! ## SmesherService.StartSmeshing

The smeshing backend (`api.SmeshingAPI.StartSmeshing(addr)`) is external to
this core; it is embedded as a function from the coinbase address to an
optional error message (`none` = nil error). `α` stands for the address type
produced by `types.BytesToAddress` (that conversion lives outside this core).
The second component of the result records the addresses with which the
backend was invoked, in order, so that "backend untouched" is expressible. -/

/-- `pb.StartSmeshingRequest`: carries an optional `Coinbase` account id;
`in.Coinbase == nil` is `Coinbase = none`. -/
structure StartSmeshingRequest (α : Type) where
  Coinbase : Option α

/-- `SmesherService.StartSmeshing` from `node_service.go`: rejects a missing
coinbase with `InvalidArgument`, wraps a backend failure as `Internal` with
the backend's message, and otherwise returns an OK status. Also returns the
list of backend invocations made. -/
def StartSmeshing {α : Type} (backend : α → Option String)
    (request : StartSmeshingRequest α) : Except GrpcError Int × List α :=
  match request.Coinbase with
  | none => (.error { code := .invalidArgument, msg := "`Coinbase` must be provided" }, [])
  | some addr =>
    match backend addr with
    | some e => (.error { code := .internal, msg := e }, [addr])
    | none => (.ok codeOK, [addr])

/-! ## SmesherService.MinGas / SmesherService.SetMinGas -/

/-- `SmesherService.MinGas` from `node_service.go`: always returns
`Unimplemented`. The response type is the would-be `pb.MinGasResponse`
payload (a gas value). -/
def MinGas (_request : Unit) : Except GrpcError Nat :=
  .error { code := .unimplemented, msg := "this endpoint is not implemented" }

/-- `SmesherService.SetMinGas` from `node_service.go`: always returns
`Unimplemented`. The request carries the would-be new min-gas value. -/
def SetMinGas (_request : Nat) : Except GrpcError Int :=
  .error { code := .unimplemented, msg := "this endpoint is not implemented" }

/-! ## SmesherService.PostComputeProviders -/

/-- A compute provider as returned by `s.post.PostComputeProviders()`,
together with the result its `Benchmark()` call yields (the benchmark is a
side-effecting call on the provider; its outcome is part of the modelled
input). -/
structure ComputeProvider where
  Id         : Nat
  Model      : String
  ComputeAPI : Nat
  benchmarkResult : Except String Nat
deriving Repr

/-- `pb.PostComputeProvider`: one entry of the response list. -/
structure PbPostComputeProvider where
  Id          : Nat
  Model       : String
  ComputeApi  : Nat
  Performance : Nat
deriving Repr, DecidableEq

/-- The conversion the loop body of `PostComputeProviders` performs on a
provider whose benchmark returned `hs`. -/
def providerToPb (p : ComputeProvider) (hs : Nat) : PbPostComputeProvider :=
  { Id := p.Id, Model := p.Model, ComputeApi := p.ComputeAPI, Performance := hs }

/-- `SmesherService.PostComputeProviders` from `node_service.go`: walks the
backend's provider list in order, benchmarking each; the first benchmark
failure aborts the whole call with that error, otherwise one response entry
per provider is produced in the backend's order. -/
def PostComputeProviders : List ComputeProvider → Except String (List PbPostComputeProvider)
  | [] => .ok []
  | p :: rest =>
    match p.benchmarkResult with
    | .error e => .error e
    | .ok hs =>
      match PostComputeProviders rest with
      | .error e => .error e
      | .ok tl => .ok (providerToPb p hs :: tl)

/-! ## SmesherService.PostDataCreationProgressStream -/

/-- `activation.PostOptions` (the fields `statusToPbStatus` reads). -/
structure PostOptions where
  DataDir           : String
  DataSize          : Nat
  Append            : Bool
  Throttle          : Bool
  ComputeProviderId : Nat
deriving Repr, DecidableEq

/-- `activation.PostStatus`: one progress event from the post backend. -/
structure PostStatus where
  InitInProgress : Bool
  BytesWritten   : Nat
  ErrorType      : Nat
  ErrorMessage   : String
  LastOptions    : Option PostOptions
deriving Repr, DecidableEq

/-- `pb.PostData` as filled by `statusToPbStatus`. -/
structure PbPostData where
  Path       : String
  DataSize   : Nat
  Append     : Bool
  Throttle   : Bool
  ProviderId : Nat
deriving Repr, DecidableEq

/-- `pb.PostStatus`, the payload of each streamed response. -/
structure PbPostStatus where
  InitInProgress : Bool
  BytesWritten   : Nat
  ErrorType      : Nat
  ErrorMessage   : String
  PostData       : Option PbPostData
deriving Repr, DecidableEq

/-- `statusToPbStatus` from `node_service.go`: field-for-field copy of the
event into the protobuf message, with `LastOptions` mapped to `PostData`
when present. -/
def statusToPbStatus (st : PostStatus) : PbPostStatus :=
  { InitInProgress := st.InitInProgress
    BytesWritten   := st.BytesWritten
    ErrorType      := st.ErrorType
    ErrorMessage   := st.ErrorMessage
    PostData       :=
      match st.LastOptions with
      | some opts =>
        some
          { Path       := opts.DataDir
            DataSize   := opts.DataSize
            Append     := opts.Append
            Throttle   := opts.Throttle
            ProviderId := opts.ComputeProviderId }
      | none => none }

/-- The `stream.Send` behaviour of the client: `sendErr k = some e` means the
(k+1)-th `Send` call fails with error `e` (the client has gone away), and
`none` means it succeeds. -/
def SendModel (ε : Type) : Type := Nat → Option ε

/-- The `for status := range ch` loop of `PostDataCreationProgressStream`,
with `k` counting the `Send` calls already made: converts each event and
sends it; a failing send returns that error at once, a closed source (empty
list) returns nil. The first component lists the successfully sent
messages in order. -/
def progressLoop {ε : Type} (sendErr : SendModel ε) (k : Nat) :
    List PostStatus → List PbPostStatus × Option ε
  | [] => ([], none)
  | st :: rest =>
    match sendErr k with
    | some e => ([], some e)
    | none =>
      let (sent, r) := progressLoop sendErr (k + 1) rest
      (statusToPbStatus st :: sent, r)

/-- `SmesherService.PostDataCreationProgressStream` from `node_service.go`:
streams one converted response per event of
`s.post.PostDataCreationProgressStream()`, in order, until the source closes
or a send fails. -/
def PostDataCreationProgressStream {ε : Type} (sendErr : SendModel ε)
    (events : List PostStatus) : List PbPostStatus × Option ε :=
  progressLoop sendErr 0 events

/-- Whether an `Except` result is a success (nil error in Go terms). -/
def exceptIsOk {ε α : Type} : Except ε α → Bool
  | .ok _ => true
  | .error _ => false

/-- The throughput a provider's benchmark reported, when it succeeded
(`0` as a placeholder when it failed; only used under a success hypothesis). -/
def benchValue (p : ComputeProvider) : Nat :=
  match p.benchmarkResult with
  | .ok hs => hs
  | .error _ => 0

/-! ## Helper lemmas about the service-list loop -/

lemma parseLoop_frame (l : List String) (cfg : Config) :
    (parseLoop cfg l).1.StartGrpcServer = cfg.StartGrpcServer ∧
    (parseLoop cfg l).1.StartGrpcServices = cfg.StartGrpcServices ∧
    (parseLoop cfg l).1.GrpcServerPort = cfg.GrpcServerPort ∧
    (parseLoop cfg l).1.NewGrpcServerPort = cfg.NewGrpcServerPort ∧
    (parseLoop cfg l).1.StartJSONServer = cfg.StartJSONServer ∧
    (parseLoop cfg l).1.StartNewJSONServer = cfg.StartNewJSONServer ∧
    (parseLoop cfg l).1.JSONServerPort = cfg.JSONServerPort ∧
    (parseLoop cfg l).1.NewJSONServerPort = cfg.NewJSONServerPort := by
  induction l generalizing cfg with
  | nil => simp [parseLoop]
  | cons s rest ih =>
    by_cases h1 : s = "mesh"
    · simpa [parseLoop, h1] using ih { cfg with StartMeshService := true }
    · by_cases h2 : s = "node"
      · simpa [parseLoop, h1, h2] using ih { cfg with StartNodeService := true }
      · simp [parseLoop, h1, h2]

lemma parseLoop_mesh_mono (l : List String) (cfg : Config)
    (h : cfg.StartMeshService = true) :
    (parseLoop cfg l).1.StartMeshService = true := by
  induction l generalizing cfg with
  | nil => simpa [parseLoop] using h
  | cons s rest ih =>
    by_cases h1 : s = "mesh"
    · have hr := ih { cfg with StartMeshService := true } rfl
      simpa [parseLoop, h1] using hr
    · by_cases h2 : s = "node"
      · have hr := ih { cfg with StartNodeService := true } h
        simpa [parseLoop, h1, h2] using hr
      · simpa [parseLoop, h1, h2] using h

lemma parseLoop_node_mono (l : List String) (cfg : Config)
    (h : cfg.StartNodeService = true) :
    (parseLoop cfg l).1.StartNodeService = true := by
  induction l generalizing cfg with
  | nil => simpa [parseLoop] using h
  | cons s rest ih =>
    by_cases h1 : s = "mesh"
    · have hr := ih { cfg with StartMeshService := true } h
      simpa [parseLoop, h1] using hr
    · by_cases h2 : s = "node"
      · have hr := ih { cfg with StartNodeService := true } rfl
        simpa [parseLoop, h1, h2] using hr
      · simpa [parseLoop, h1, h2] using h

lemma parseLoop_known (l : List String) (cfg : Config)
    (h : ∀ s ∈ l, s = "mesh" ∨ s = "node") :
    (parseLoop cfg l).1.StartMeshService = (cfg.StartMeshService || l.contains "mesh") ∧
    (parseLoop cfg l).1.StartNodeService = (cfg.StartNodeService || l.contains "node") ∧
    (parseLoop cfg l).2 = none := by
  induction l generalizing cfg with
  | nil => simp [parseLoop]
  | cons s rest ih =>
    rcases h s (List.mem_cons_self s rest) with h1 | h1
    · have hrec := ih { cfg with StartMeshService := true }
        (fun t ht => h t (List.mem_cons_of_mem s ht))
      subst h1
      simpa [parseLoop, List.contains_cons] using hrec
    · have hne : s ≠ "mesh" := by subst h1; decide
      have hrec := ih { cfg with StartNodeService := true }
        (fun t ht => h t (List.mem_cons_of_mem s ht))
      subst h1
      simpa [parseLoop, hne, List.contains_cons] using hrec

lemma parseLoop_unknown (l1 : List String) (svc : String) (l2 : List String) (cfg : Config)
    (h : ∀ s ∈ l1, s = "mesh" ∨ s = "node") (hm : svc ≠ "mesh") (hn : svc ≠ "node") :
    parseLoop cfg (l1 ++ svc :: l2)
      = ((parseLoop cfg l1).1, some ("unrecognized GRPC service requested: " ++ svc)) := by
  induction l1 generalizing cfg with
  | nil => simp [parseLoop, hm, hn]
  | cons s rest ih =>
    rcases h s (List.mem_cons_self s rest) with h1 | h1
    · subst h1
      simpa [parseLoop] using
        ih { cfg with StartMeshService := true } (fun t ht => h t (List.mem_cons_of_mem _ ht))
    · have hne : s ≠ "mesh" := by subst h1; decide
      subst h1
      simpa [parseLoop, hne] using
        ih { cfg with StartNodeService := true } (fun t ht => h t (List.mem_cons_of_mem _ ht))

lemma parseServicesList_fst (cfg : Config) :
    (ParseServicesList cfg).1 = (parseLoop cfg cfg.StartGrpcServices).1 := by
  unfold ParseServicesList
  rcases hp : parseLoop cfg cfg.StartGrpcServices with ⟨cfg1, e⟩
  cases e with
  | none =>
    dsimp
    split <;> rfl
  | some err => rfl

/-! ## Helper lemmas about PostComputeProviders -/

lemma postComputeProviders_ok (providers : List ComputeProvider)
    (h : ∀ p ∈ providers, exceptIsOk p.benchmarkResult = true) :
    PostComputeProviders providers
      = .ok (providers.map (fun p => providerToPb p (benchValue p))) := by
  induction providers with
  | nil => simp [PostComputeProviders]
  | cons p rest ih =>
    have hp := h p (List.mem_cons_self p rest)
    have hrest := ih (fun q hq => h q (List.mem_cons_of_mem p hq))
    cases hb : p.benchmarkResult with
    | error e => rw [hb] at hp; simp [exceptIsOk] at hp
    | ok hs =>
      have hv : benchValue p = hs := by simp [benchValue, hb]
      simp [PostComputeProviders, hb, hrest, hv]

lemma postComputeProviders_error (l1 : List ComputeProvider) (p : ComputeProvider)
    (l2 : List ComputeProvider) (e : String)
    (hok : ∀ q ∈ l1, exceptIsOk q.benchmarkResult = true)
    (herr : p.benchmarkResult = .error e) :
    PostComputeProviders (l1 ++ p :: l2) = .error e := by
  induction l1 with
  | nil => simp [PostComputeProviders, herr]
  | cons q rest ih =>
    have hq := hok q (List.mem_cons_self q rest)
    have hrest := ih (fun t ht => hok t (List.mem_cons_of_mem q ht))
    cases hb : q.benchmarkResult with
    | error e2 => rw [hb] at hq; simp [exceptIsOk] at hq
    | ok hs => simp [PostComputeProviders, hb, hrest]

/-! ## Helper lemmas about the progress stream loop -/

lemma progressLoop_all_sent {ε : Type} (sendErr : SendModel ε) (events : List PostStatus)
    (k : Nat) (h : ∀ i, i < events.length → sendErr (k + i) = none) :
    progressLoop sendErr k events = (events.map statusToPbStatus, none) := by
  induction events generalizing k with
  | nil => simp [progressLoop]
  | cons st rest ih =>
    have h0 : sendErr k = none := by simpa using h 0 (by simp)
    have hr : progressLoop sendErr (k + 1) rest = (rest.map statusToPbStatus, none) := by
      apply ih
      intro i hi
      have hh := h (i + 1) (by simp only [List.length_cons]; omega)
      have heq : k + (i + 1) = k + 1 + i := by omega
      rw [heq] at hh
      exact hh
    simp [progressLoop, h0, hr]

lemma progressLoop_send_fails {ε : Type} (sendErr : SendModel ε) (events : List PostStatus)
    (k j : Nat) (e : ε) (hj : j < events.length) (he : sendErr (k + j) = some e)
    (hlt : ∀ i, i < j → sendErr (k + i) = none) :
    progressLoop sendErr k events = ((events.take j).map statusToPbStatus, some e) := by
  induction events generalizing k j with
  | nil => simp at hj
  | cons st rest ih =>
    cases j with
    | zero =>
      have h0 : sendErr k = some e := by simpa using he
      simp [progressLoop, h0]
    | succ j2 =>
      have h0 : sendErr k = none := by
        have hh := hlt 0 (Nat.succ_pos j2)
        simpa using hh
      have hj2 : j2 < rest.length := by
        simp only [List.length_cons] at hj
        omega
      have he2 : sendErr (k + 1 + j2) = some e := by
        have heq : k + 1 + j2 = k + (j2 + 1) := by omega
        rw [heq]
        exact he
      have hlt2 : ∀ i, i < j2 → sendErr (k + 1 + i) = none := by
        intro i hi
        have heq : k + 1 + i = k + (i + 1) := by omega
        rw [heq]
        exact hlt (i + 1) (by omega)
      have hr := ih (k + 1) j2 hj2 he2 hlt2
      simp [progressLoop, h0, hr, List.take_succ_cons]

/-! ## Claim theorems -/

/-- C1 counterexample: on the request list `["mesh", "wrong"]`,
`ParseServicesList` does fail naming the offending service, but the
configuration is NOT left unchanged — `StartMeshService`, initially false,
has been set to true for the recognized name preceding the unrecognized one,
so partial application occurs. -/
theorem c1_partial_application_counterexample :
    ({ DefaultConfig with StartGrpcServices := ["mesh", "wrong"] } : Config).StartMeshService
        = false
    ∧ (ParseServicesList { DefaultConfig with StartGrpcServices := ["mesh", "wrong"] }).2
        = some "unrecognized GRPC service requested: wrong"
    ∧ (ParseServicesList
          { DefaultConfig with StartGrpcServices := ["mesh", "wrong"] }).1.StartMeshService
        = true := by
  refine ⟨rfl, ?_, ?_⟩ <;> decide

/-- C1 (amended): when the requested list contains an unrecognized name
(first such name `svc`, preceded only by recognized names `l1`),
`ParseServicesList` fails with the unknown-service error identifying `svc`;
the service flags for the recognized names in the prefix `l1` HAVE been set
(partial application of the prefix occurs), no flag is set for any later
name, and every non-service-flag field is unchanged. -/
theorem c1_unknown_service_error_with_prefix_flags
    (cfg : Config) (l1 : List String) (svc : String) (l2 : List String)
    (hl : cfg.StartGrpcServices = l1 ++ svc :: l2)
    (hrec : ∀ s ∈ l1, s = "mesh" ∨ s = "node")
    (hm : svc ≠ "mesh") (hn : svc ≠ "node") :
    (ParseServicesList cfg).2 = some ("unrecognized GRPC service requested: " ++ svc)
    ∧ (ParseServicesList cfg).1.StartMeshService
        = (cfg.StartMeshService || l1.contains "mesh")
    ∧ (ParseServicesList cfg).1.StartNodeService
        = (cfg.StartNodeService || l1.contains "node")
    ∧ (ParseServicesList cfg).1.StartGrpcServer = cfg.StartGrpcServer
    ∧ (ParseServicesList cfg).1.StartGrpcServices = cfg.StartGrpcServices
    ∧ (ParseServicesList cfg).1.GrpcServerPort = cfg.GrpcServerPort
    ∧ (ParseServicesList cfg).1.NewGrpcServerPort = cfg.NewGrpcServerPort
    ∧ (ParseServicesList cfg).1.StartJSONServer = cfg.StartJSONServer
    ∧ (ParseServicesList cfg).1.StartNewJSONServer = cfg.StartNewJSONServer
    ∧ (ParseServicesList cfg).1.JSONServerPort = cfg.JSONServerPort
    ∧ (ParseServicesList cfg).1.NewJSONServerPort = cfg.NewJSONServerPort := by
  have hu := parseLoop_unknown l1 svc l2 cfg hrec hm hn
  have hk := parseLoop_known l1 cfg hrec
  have hff := parseLoop_frame l1 cfg
  have h2 : (ParseServicesList cfg).2
      = some ("unrecognized GRPC service requested: " ++ svc) := by
    unfold ParseServicesList
    rw [hl, hu]
  have h1 : (ParseServicesList cfg).1 = (parseLoop cfg l1).1 := by
    have hfst := parseServicesList_fst cfg
    rw [hl, hu] at hfst
    exact hfst
  rw [h1, h2]
  exact ⟨rfl, hk.1, hk.2.1, hff.1, hff.2.1, hff.2.2.1, hff.2.2.2.1, hff.2.2.2.2.1,
    hff.2.2.2.2.2.1, hff.2.2.2.2.2.2.1, hff.2.2.2.2.2.2.2⟩

/-- C1 witness: concrete run of the amended theorem on the list
`["mesh", "wrong", "node"]` — the error names `wrong`, the earlier `mesh`
flag is set, the later `node` flag is not. -/
theorem c1_unknown_service_error_with_prefix_flags_witness :
    (ParseServicesList
        { DefaultConfig with StartGrpcServices := ["mesh", "wrong", "node"] }).2
      = some "unrecognized GRPC service requested: wrong"
    ∧ (ParseServicesList
        { DefaultConfig with StartGrpcServices := ["mesh", "wrong", "node"] }).1.StartMeshService
      = true
    ∧ (ParseServicesList
        { DefaultConfig with StartGrpcServices := ["mesh", "wrong", "node"] }).1.StartNodeService
      = false := by
  have h := c1_unknown_service_error_with_prefix_flags
    { DefaultConfig with StartGrpcServices := ["mesh", "wrong", "node"] }
    ["mesh"] "wrong" ["node"] rfl (by decide) (by decide) (by decide)
  refine ⟨h.1, ?_, ?_⟩
  · rw [h.2.1]
    decide
  · rw [h.2.2.1]
    decide

/-- C2: with the new JSON gateway server enabled and exactly the recognized
GRPC service `"mesh"` requested (and successfully enabled),
`ParseServicesList` nonetheless fails with the missing-dependency error,
because the dependency check tests only `StartNodeService` — contradicting
the code's own comment and error message ("at least one GRPC service"). -/
theorem c2_gateway_with_mesh_service_rejected :
    (ParseServicesList
        { DefaultConfig with StartGrpcServices := ["mesh"], StartNewJSONServer := true }).2
      = some "must enable at least one GRPC service along with JSON gateway service"
    ∧ (ParseServicesList
        { DefaultConfig with StartGrpcServices := ["mesh"], StartNewJSONServer := true }).1.StartMeshService
      = true := by
  refine ⟨?_, ?_⟩ <;> decide

/-- C3: `Status` returns exactly the five collaborator reads —
`ConnectedPeers` from `PeerCount()`, `IsSynced` from `IsSynced()`,
`SyncedLayer` from `LatestLayer()`, `TopLayer` from `GetCurrentLayer()`,
`VerifiedLayer` from `LatestLayerInState()` — with no recombination, and
never returns an error (it is always `.ok`). -/
theorem c3_status_snapshot_exact (s : NodeCollaborators) :
    Status s
      = .ok
          { ConnectedPeers := s.peerCount
            IsSynced       := s.isSynced
            SyncedLayer    := s.latestLayer
            TopLayer       := s.currentLayer
            VerifiedLayer  := s.latestLayerInState } := rfl

/-- C4: `Echo` returns the payload unchanged exactly when one is present,
and fails with `InvalidArgument` exactly when the payload is absent. -/
theorem c4_echo_payload_or_invalid_argument :
    (∀ v : String, Echo { Msg := some v } = .ok { Msg := v })
    ∧ Echo { Msg := none }
        = .error { code := .invalidArgument, msg := "Must include `Msg`" }
    ∧ ∀ r : EchoRequest, exceptIsOk (Echo r) = r.Msg.isSome := by
  refine ⟨fun v => rfl, rfl, ?_⟩
  intro r
  rcases r with ⟨_ | v⟩ <;> rfl

/-- C5: `PostComputeProviders` returns one entry per provider, in the
backend's order, carrying id, model, compute-API class and benchmarked
throughput, when every benchmark succeeds; the first failing benchmark makes
the whole call fail with that error and no list is returned. -/
theorem c5_post_compute_providers_all_or_nothing (providers : List ComputeProvider) :
    ((∀ p ∈ providers, exceptIsOk p.benchmarkResult = true) →
        PostComputeProviders providers
          = .ok (providers.map (fun p => providerToPb p (benchValue p))))
    ∧ ∀ l1 p l2 e, providers = l1 ++ p :: l2 →
        (∀ q ∈ l1, exceptIsOk q.benchmarkResult = true) →
        p.benchmarkResult = .error e →
        PostComputeProviders providers = .error e := by
  refine ⟨fun h => postComputeProviders_ok providers h, ?_⟩
  intro l1 p l2 e heq hok herr
  rw [heq]
  exact postComputeProviders_error l1 p l2 e hok herr

/-- C5 witness: a two-provider list whose second benchmark fails yields that
failure, and the single-good-provider list yields the one-entry response. -/
theorem c5_post_compute_providers_witness :
    PostComputeProviders
        [⟨1, "cpu", 0, .ok 100⟩, ⟨2, "gpu", 1, .error "benchmark failed"⟩]
      = .error "benchmark failed"
    ∧ PostComputeProviders [⟨1, "cpu", 0, .ok 100⟩] = .ok [⟨1, "cpu", 0, 100⟩] := by
  constructor
  · exact (c5_post_compute_providers_all_or_nothing _).2
      [⟨1, "cpu", 0, .ok 100⟩] ⟨2, "gpu", 1, .error "benchmark failed"⟩ []
      "benchmark failed" rfl (by decide) rfl
  · have h := (c5_post_compute_providers_all_or_nothing
      [⟨1, "cpu", 0, .ok 100⟩]).1 (by decide)
    simpa [providerToPb, benchValue] using h

/-- C6: `StartSmeshing` fails with `InvalidArgument` and performs no backend
call when `Coinbase` is absent; when present, a backend failure is returned
as `Internal` carrying the backend's message, and a backend success yields
the OK status (the backend being called exactly once on the address). -/
theorem c6_start_smeshing_validation_and_propagation
    {α : Type} (backend : α → Option String) (r : StartSmeshingRequest α) :
    (r.Coinbase = none →
        StartSmeshing backend r
          = (.error { code := .invalidArgument, msg := "`Coinbase` must be provided" }, []))
    ∧ (∀ a e, r.Coinbase = some a → backend a = some e →
        StartSmeshing backend r = (.error { code := .internal, msg := e }, [a]))
    ∧ (∀ a, r.Coinbase = some a → backend a = none →
        StartSmeshing backend r = (.ok codeOK, [a])) := by
  refine ⟨?_, ?_, ?_⟩
  · intro h
    simp [StartSmeshing, h]
  · intro a e ha he
    simp [StartSmeshing, ha, he]
  · intro a ha he
    simp [StartSmeshing, ha, he]

/-- C6 witness: a backend that rejects address 7 — the missing-coinbase
request never reaches it, address 7 surfaces its message as `Internal`,
address 3 succeeds with OK. -/
theorem c6_start_smeshing_witness :
    StartSmeshing (fun a : Nat => if a = 7 then some "smeshing already started" else none)
        { Coinbase := none }
      = (.error { code := .invalidArgument, msg := "`Coinbase` must be provided" }, [])
    ∧ StartSmeshing (fun a : Nat => if a = 7 then some "smeshing already started" else none)
        { Coinbase := some 7 }
      = (.error { code := .internal, msg := "smeshing already started" }, [7])
    ∧ StartSmeshing (fun a : Nat => if a = 7 then some "smeshing already started" else none)
        { Coinbase := some 3 }
      = (.ok codeOK, [3]) := by
  refine ⟨?_, ?_, ?_⟩
  · exact (c6_start_smeshing_validation_and_propagation _ _).1 rfl
  · exact (c6_start_smeshing_validation_and_propagation _ _).2.1
      7 "smeshing already started" rfl rfl
  · exact (c6_start_smeshing_validation_and_propagation _ _).2.2 3 rfl rfl

/-- C7: `MinGas` and `SetMinGas` return the `Unimplemented` error on every
input and never return a successful response. -/
theorem c7_min_gas_always_unimplemented :
    (∀ u : Unit,
        MinGas u = .error { code := .unimplemented, msg := "this endpoint is not implemented" })
    ∧ ∀ n : Nat,
        SetMinGas n
          = .error { code := .unimplemented, msg := "this endpoint is not implemented" } :=
  ⟨fun _ => rfl, fun _ => rfl⟩

/-- C8: `PostDataCreationProgressStream` sends one converted response per
event, in emission order, each copying the event's bytes-written, error
kind, error message and in-progress flag; it returns nil when the source
closes, and a failing send at position `j` stops the stream at once,
returning that error with only the first `j` events sent. -/
theorem c8_progress_stream_order_and_termination
    {ε : Type} (sendErr : SendModel ε) (events : List PostStatus) :
    ((∀ i, i < events.length → sendErr i = none) →
        PostDataCreationProgressStream sendErr events
          = (events.map statusToPbStatus, none))
    ∧ (∀ j e, j < events.length → sendErr j = some e →
        (∀ i, i < j → sendErr i = none) →
        PostDataCreationProgressStream sendErr events
          = ((events.take j).map statusToPbStatus, some e))
    ∧ ∀ st : PostStatus,
        (statusToPbStatus st).BytesWritten = st.BytesWritten
        ∧ (statusToPbStatus st).ErrorType = st.ErrorType
        ∧ (statusToPbStatus st).ErrorMessage = st.ErrorMessage
        ∧ (statusToPbStatus st).InitInProgress = st.InitInProgress := by
  refine ⟨?_, ?_, ?_⟩
  · intro h
    exact progressLoop_all_sent sendErr events 0 (fun i hi => by simpa using h i hi)
  · intro j e hj he hlt
    exact progressLoop_send_fails sendErr events 0 j e hj (by simpa using he)
      (fun i hi => by simpa using hlt i hi)
  · intro st
    exact ⟨rfl, rfl, rfl, rfl⟩

/-- C8 witness: two concrete events — with an always-successful client both
are delivered in order and the stream ends with nil; with a client whose
second send fails, only the first event is delivered and the send error is
returned. -/
theorem c8_progress_stream_witness :
    PostDataCreationProgressStream (fun _ => (none : Option String))
        [⟨true, 1024, 0, "", none⟩, ⟨false, 2048, 0, "", none⟩]
      = ([⟨true, 1024, 0, "", none⟩, ⟨false, 2048, 0, "", none⟩], none)
    ∧ PostDataCreationProgressStream
        (fun i => if i = 1 then some "client disconnected" else (none : Option String))
        [⟨true, 1024, 0, "", none⟩, ⟨false, 2048, 0, "", none⟩]
      = ([⟨true, 1024, 0, "", none⟩], some "client disconnected") := by
  constructor
  · have h := (c8_progress_stream_order_and_termination
        (fun _ => (none : Option String))
        [⟨true, 1024, 0, "", none⟩, ⟨false, 2048, 0, "", none⟩]).1
      (fun i _ => rfl)
    simpa [statusToPbStatus] using h
  · have h := (c8_progress_stream_order_and_termination
        (fun i => if i = 1 then some "client disconnected" else (none : Option String))
        [⟨true, 1024, 0, "", none⟩, ⟨false, 2048, 0, "", none⟩]).2.1
      1 "client disconnected" (by decide) rfl
      (fun i hi => by
        have hz : i = 0 := by omega
        rw [hz]
        rfl)
    simpa [statusToPbStatus] using h

/-- C9: `StatusStream` and `ErrorStream` send no message on the stream and
return nil (success) on every request. -/
theorem c9_streams_are_noop_stubs :
    (∀ r : Unit, StatusStream r = ([], none))
    ∧ ∀ r : Unit, ErrorStream r = ([], none) :=
  ⟨fun _ => rfl, fun _ => rfl⟩

/-- C10: `ParseServicesList` changes at most `StartMeshService` and
`StartNodeService`, and only from false to true (a flag already true stays
true); every other field — server start flags, all four ports, and the
requested services list — is returned unchanged, whether the call succeeds
or fails. -/
theorem c10_parse_services_list_frame (cfg : Config) :
    (ParseServicesList cfg).1.StartGrpcServer = cfg.StartGrpcServer
    ∧ (ParseServicesList cfg).1.StartGrpcServices = cfg.StartGrpcServices
    ∧ (ParseServicesList cfg).1.GrpcServerPort = cfg.GrpcServerPort
    ∧ (ParseServicesList cfg).1.NewGrpcServerPort = cfg.NewGrpcServerPort
    ∧ (ParseServicesList cfg).1.StartJSONServer = cfg.StartJSONServer
    ∧ (ParseServicesList cfg).1.StartNewJSONServer = cfg.StartNewJSONServer
    ∧ (ParseServicesList cfg).1.JSONServerPort = cfg.JSONServerPort
    ∧ (ParseServicesList cfg).1.NewJSONServerPort = cfg.NewJSONServerPort
    ∧ (cfg.StartMeshService = true → (ParseServicesList cfg).1.StartMeshService = true)
    ∧ (cfg.StartNodeService = true → (ParseServicesList cfg).1.StartNodeService = true) := by
  have hfst := parseServicesList_fst cfg
  rw [hfst]
  have hff := parseLoop_frame cfg.StartGrpcServices cfg
  exact ⟨hff.1, hff.2.1, hff.2.2.1, hff.2.2.2.1, hff.2.2.2.2.1, hff.2.2.2.2.2.1,
    hff.2.2.2.2.2.2.1, hff.2.2.2.2.2.2.2,
    fun h => parseLoop_mesh_mono cfg.StartGrpcServices cfg h,
    fun h => parseLoop_node_mono cfg.StartGrpcServices cfg h⟩

/-- C10 witness: a config with both flags already true and an unrecognized
name in the list — after the failing call both flags are still true and a
port field is untouched. -/
theorem c10_parse_services_list_frame_witness :
    (ParseServicesList
        { DefaultConfig with
            StartGrpcServices := ["bad"], StartMeshService := true,
            StartNodeService := true }).1.StartMeshService = true
    ∧ (ParseServicesList
        { DefaultConfig with
            StartGrpcServices := ["bad"], StartMeshService := true,
            StartNodeService := true }).1.StartNodeService = true
    ∧ (ParseServicesList
        { DefaultConfig with
            StartGrpcServices := ["bad"], StartMeshService := true,
            StartNodeService := true }).1.GrpcServerPort = 9091 := by
  have h := c10_parse_services_list_frame
    { DefaultConfig with
        StartGrpcServices := ["bad"], StartMeshService := true, StartNodeService := true }
  refine ⟨h.2.2.2.2.2.2.2.2.1 rfl, h.2.2.2.2.2.2.2.2.2 rfl, ?_⟩
  rw [h.2.2.1]
  decide
